import Mathlib

/-!
# svelte.config.js

A shallow embedding of the build configuration exported by `svelte.config.js`.

The module body is one object literal.  Its only free names are the two imported
collaborators `preprocess` (from `svelte-preprocess`) and `adapter` (from
`@sveltejs/adapter-static`).  Both live outside the repository, so they are taken as
parameters.  A call into foreign JavaScript may return a value, touch ambient state or
throw, hence the collaborators are procedures in an arbitrary monad `m`, and the object
literal is evaluated in source order: first `preprocess({})`, then `adapter({...})`.
-/

namespace SvelteConfig

/-- Values that may occur inside a plain JavaScript options object.  Numbers are left
out: the only options object built from such values here is the empty one. -/
inductive JsValue where
  | null : JsValue
  | bool (b : Bool) : JsValue
  | str (s : String) : JsValue
  | obj (fields : List (String × JsValue)) : JsValue

/-- The options object handed to `preprocess`: own properties in insertion order. -/
abbrev PreprocessOptions := List (String × JsValue)

/-- The options object handed to `adapter`; `fallback: null` is `none`. -/
structure AdapterOptions where
  pages : String
  assets : String
  fallback : Option String
  deriving DecidableEq, Repr

/-- The `paths` object of the `kit` section. -/
structure Paths where
  base : String
  deriving DecidableEq, Repr

/-- The `kit` section; `A` is whatever the adapter collaborator returns. -/
structure Kit (A : Type) where
  target : String
  paths : Paths
  adapter : A
  deriving DecidableEq, Repr

/-- The exported object; `P` is whatever the preprocess collaborator returns. -/
structure Config (P A : Type) where
  preprocess : P
  kit : Kit A
  deriving DecidableEq

/-- The module body of `svelte.config.js`, lines 5-18: `const config = { ... }`. -/
def config {m : Type → Type} [Monad m] {P A : Type}
    (preprocess : PreprocessOptions → m P) (adapter : AdapterOptions → m A) :
    m (Config P A) := do
  let p ← preprocess []
  let a ← adapter { pages := "build", assets := "build", fallback := none }
  pure { preprocess := p,
         kit := { target := "body",
                  paths := { base := "/maze" },
                  adapter := a } }

/-- The exported object when both collaborators are plain functions of their options
argument: no ambient state, no exception. -/
def configWith {P A : Type} (preprocess : PreprocessOptions → P) (adapter : AdapterOptions → A) :
    Config P A :=
  Id.run (config (m := Id) (fun o => pure (preprocess o)) (fun o => pure (adapter o)))

/-- The exported object as seen with collaborators that hand back the options object they
were called with, so that `observed.preprocess` is the argument of `preprocess(...)` and
`observed.kit.adapter` is the argument of `adapter(...)`. -/
def observed : Config PreprocessOptions AdapterOptions :=
  configWith id id

/-- The separator of URL and file-system paths. -/
def pathSeparator : Char := '/'

/-- A `preprocess` collaborator that reads the ambient state, here a string standing for
an environment variable, and returns what it finds. -/
def envPreprocess : PreprocessOptions → StateM String String :=
  fun _ => get

/-- A `preprocess` collaborator that counts its calls in the ambient state and returns the
options it was called with. -/
def countingPreprocess : PreprocessOptions → StateM Nat PreprocessOptions :=
  fun o => do
    modify (· + 1)
    pure o

/-- An `adapter` collaborator that doubles the ambient state and returns the options it
was called with. -/
def doublingAdapter : AdapterOptions → StateM Nat AdapterOptions :=
  fun o => do
    modify (· * 2)
    pure o

/-! ## Supporting facts -/

/-- Whatever the collaborators do, they are called with the observed options, in source
order, and the exported object is assembled from their two results and the observed
literals. -/
theorem config_eq_observed {m : Type → Type} [Monad m] {P A : Type}
    (preprocess : PreprocessOptions → m P) (adapter : AdapterOptions → m A) :
    config preprocess adapter = (do
      let p ← preprocess observed.preprocess
      let a ← adapter observed.kit.adapter
      pure { preprocess := p, kit := { observed.kit with adapter := a } }) :=
  rfl

/-- With collaborators that may throw, an exception out of the module body is the one
thrown by `preprocess({})` or by `adapter({...})`: the body has no throw of its own. -/
theorem config_error_from_collaborator {ε P A : Type}
    (preprocess : PreprocessOptions → Except ε P) (adapter : AdapterOptions → Except ε A)
    (e : ε) (h : config preprocess adapter = .error e) :
    preprocess [] = .error e ∨
      adapter { pages := "build", assets := "build", fallback := none } = .error e := by
  unfold config at h
  cases hp : preprocess [] with
  | error e1 =>
    rw [hp] at h
    exact Or.inl (by simpa [bind, Except.bind] using h)
  | ok p =>
    rw [hp] at h
    cases ha : adapter { pages := "build", assets := "build", fallback := none } with
    | error e2 =>
      rw [ha] at h
      exact Or.inr (by simpa [bind, Except.bind] using h)
    | ok a =>
      rw [ha] at h
      simp [bind, Except.bind, pure, Except.pure] at h

/-! ## Specified properties -/

/-- C1: the exported configuration has exactly the values `kit.target = "body"`,
`kit.paths.base = "/maze"`, adapter options `pages = "build"`, `assets = "build"`,
`fallback` absent, and the options object passed to the preprocessing plugin is empty;
for any collaborators the exported object is these literals around the two results. -/
theorem config_values (P A : Type) (f : PreprocessOptions → P) (g : AdapterOptions → A) :
    configWith f g =
        { preprocess := f [],
          kit := { target := "body",
                   paths := { base := "/maze" },
                   adapter := g { pages := "build", assets := "build", fallback := none } } } ∧
      observed.kit.target = "body" ∧
      observed.kit.paths.base = "/maze" ∧
      observed.kit.adapter.pages = "build" ∧
      observed.kit.adapter.assets = "build" ∧
      observed.kit.adapter.fallback = none ∧
      observed.preprocess = [] :=
  ⟨rfl, rfl, rfl, rfl, rfl, rfl, rfl⟩

/-- C2: `kit.paths.base` begins with the path separator and does not end with one: its
first character is `/` and its last character is not `/`, whatever the collaborators
return. -/
theorem base_path_shape (P A : Type) (f : PreprocessOptions → P) (g : AdapterOptions → A) :
    (configWith f g).kit.paths.base.data.head? = some pathSeparator ∧
      (configWith f g).kit.paths.base.data.getLast? ≠ some pathSeparator ∧
      (configWith f g).kit.paths.base.data.getLast? = some 'e' := by
  refine ⟨rfl, ?_, rfl⟩
  show ("/maze" : String).data.getLast? ≠ some pathSeparator
  decide

/-- C3: the adapter options `pages` and `assets` are not empty strings: each has length
greater than zero. -/
theorem output_dirs_nonempty :
    observed.kit.adapter.pages ≠ "" ∧ observed.kit.adapter.assets ≠ "" ∧
      0 < observed.kit.adapter.pages.length ∧ 0 < observed.kit.adapter.assets.length := by
  decide

/-- C4, as stated, fails: the exported object holds what the two collaborators return, and
a collaborator may read ambient state.  With a `preprocess` that returns the state it finds
and an `adapter` that hands back its options, the evaluation started in state
`"production"` and the one started in state `"development"` return different objects. -/
theorem config_not_deterministic_for_state_reading_collaborator :
    ((config envPreprocess (fun o => pure o) :
          StateM String (Config String AdapterOptions)).run "production").1 ≠
      ((config envPreprocess (fun o => pure o) :
          StateM String (Config String AdapterOptions)).run "development").1 := by
  intro h
  have hpre := congrArg Config.preprocess h
  revert hpre
  show ("production" : String) = "development" → False
  decide

/-- C4, amended: evaluation is deterministic relative to the two imported collaborators.
If what `preprocess` and `adapter` return does not vary with the ambient state (they may
still change it), then two evaluations started in any two states return the same object,
and that object is the literals `target = "body"`, `base = "/maze"` around the result of
`preprocess({})` and the result of `adapter({pages: "build", assets: "build",
fallback: null})`, each taken in any state whatever. -/
theorem config_deterministic_given_collaborators {σ P A : Type}
    (preprocess : PreprocessOptions → StateM σ P) (adapter : AdapterOptions → StateM σ A)
    (hp : ∀ o w w2, ((preprocess o).run w).1 = ((preprocess o).run w2).1)
    (ha : ∀ o w w2, ((adapter o).run w).1 = ((adapter o).run w2).1) (w1 w2 u v : σ) :
    ((config preprocess adapter).run w1).1 = ((config preprocess adapter).run w2).1 ∧
      ((config preprocess adapter).run w1).1 =
        { preprocess := ((preprocess []).run u).1,
          kit := { target := "body",
                   paths := { base := "/maze" },
                   adapter := ((adapter { pages := "build", assets := "build",
                                          fallback := none }).run v).1 } } := by
  simp only [config, StateT.run_bind, StateT.run_pure, Id.bind_eq, Id.pure_eq]
  constructor
  · rw [hp [] w1 w2, ha _ ((preprocess []).run w1).2 ((preprocess []).run w2).2]
  · rw [hp [] w1 u, ha _ ((preprocess []).run w1).2 v]

/-- C4, amended, at a concrete input: a `preprocess` that counts its calls in the ambient
state and an `adapter` that doubles it, both returning their options; evaluations started
in states 0 and 5 agree. -/
theorem config_deterministic_given_collaborators_witness :
    ((config countingPreprocess doublingAdapter).run 0).1 =
        ((config countingPreprocess doublingAdapter).run 5).1 ∧
      ((config countingPreprocess doublingAdapter).run 0).1 =
        { preprocess := ((countingPreprocess []).run 7).1,
          kit := { target := "body",
                   paths := { base := "/maze" },
                   adapter := ((doublingAdapter { pages := "build", assets := "build",
                                                  fallback := none }).run 9).1 } } :=
  config_deterministic_given_collaborators countingPreprocess doublingAdapter
    (fun _ _ _ => rfl) (fun _ _ _ => rfl) 0 5 7 9

/-- C5: producing the configuration never fails: with exceptions of any type available,
and ValidationError in particular, the module body returns a configuration and not an
error, and its `kit.paths.base`, `pages` and `assets` are non-empty and well-formed
(the base path starts with `/` and does not end with it, the two output directories do
not start with `/`). -/
theorem config_never_fails (ε P A : Type) (f : PreprocessOptions → P)
    (g : AdapterOptions → A) :
    config (m := Except ε) (fun o => pure (f o)) (fun o => pure (g o)) =
        Except.ok (configWith f g) ∧
      (∀ e : ε, config (m := Except ε) (fun o => pure (f o)) (fun o => pure (g o)) ≠
        Except.error e) ∧
      observed.kit.paths.base ≠ "" ∧
      observed.kit.adapter.pages ≠ "" ∧
      observed.kit.adapter.assets ≠ "" ∧
      observed.kit.paths.base.data.head? = some pathSeparator ∧
      observed.kit.paths.base.data.getLast? ≠ some pathSeparator ∧
      observed.kit.adapter.pages.data.head? ≠ some pathSeparator ∧
      observed.kit.adapter.assets.data.head? ≠ some pathSeparator := by
  refine ⟨rfl, ?_, ?_, ?_, ?_, ?_, ?_, ?_, ?_⟩
  · intro e h
    cases h
  all_goals decide

/-- C6: `kit.target` is a non-empty string, whatever the collaborators return. -/
theorem target_nonempty (P A : Type) (f : PreprocessOptions → P) (g : AdapterOptions → A) :
    (configWith f g).kit.target ≠ "" ∧ 0 < (configWith f g).kit.target.length := by
  constructor
  · show ("body" : String) ≠ ""
    decide
  · show 0 < ("body" : String).length
    decide

/-- C7: the adapter options `pages` and `assets` are relative path strings: neither is
empty and neither begins with the path separator `/`. -/
theorem output_dirs_relative :
    (observed.kit.adapter.pages ≠ "" ∧
        observed.kit.adapter.pages.data.head? ≠ some pathSeparator) ∧
      (observed.kit.adapter.assets ≠ "" ∧
        observed.kit.adapter.assets.data.head? ≠ some pathSeparator) := by
  decide

/-- C8: the adapter options `pages` and `assets` are the same string, `"build"`: pages
and static assets go to one output directory. -/
theorem output_dirs_equal :
    observed.kit.adapter.pages = observed.kit.adapter.assets ∧
      observed.kit.adapter.pages = "build" ∧ observed.kit.adapter.assets = "build" := by
  decide

end SvelteConfig
